import Mathlib

/-!
Verification development for the `nyc_taxi_datalake` pipeline.

The repository implements a four-stage batch pipeline (Fetch, Transform,
Load/Store, Export) over a local filesystem, in `src/tasks/nyc_task.py`,
wired together by an Airflow DAG in `src/dags/nyc_pipeline.py`.

Embedding choices:
* The filesystem is a partial map from absolute path strings to file
  contents.  A file's size in bytes is the length of its content string
  (all contents handled by this program are byte strings).
* Each stage function of `nyc_task.py` becomes a pure Lean function from
  the filesystem state (plus an oracle describing the outcome of the
  external subprocess it invokes, where it invokes one) to a pair of a
  result (`Except` message value, mirroring `AirflowFailException`) and
  the filesystem state after the call.
* Python float arithmetic in the source only divides byte counts by the
  powers of two 1024*1024 and multiplies by integer constants; for all
  realistic file sizes (below 2^40 bytes) these operations are exact in
  binary64, so they are embedded as exact natural-number arithmetic with
  floor division (for `int(...)`) and round-half-to-even (for `f-string`
  `:.2f` formatting of an exactly representable value).
-/

/-- The single-quote character (ASCII 39), used inside file contents
written by the store stage. -/
def squote : String := String.singleton (Char.ofNat 39)

/-- Filesystem model: maps absolute paths to the contents of the file at
that path (`none` when no file exists there). -/
def FS : Type := String → Option String

/-- Writing (creating or truncating) the file at path `p` with content `c`. -/
def fwrite (p c : String) (fs : FS) : FS :=
  fun q => if q = p then some c else fs q

/-- `Path.exists()` probe. -/
def fexists (p : String) (fs : FS) : Bool :=
  (fs p).isSome

/-- `Path.stat().st_size` probe (in bytes); `0` when the file is absent. -/
def fsize (p : String) (fs : FS) : Nat :=
  match fs p with
  | some c => c.length
  | none => 0

/-- `pathlib`'s `/` operator on paths. -/
def pathJoin (a b : String) : String := a ++ "/" ++ b

/-- The module-level `DATA_ROOT` constant of `nyc_task.py`. -/
def DATA_ROOT : String :=
  "/Users/ashiqurrahman/DE_Projects/airflow29_home/dags/nyc_taxi_datalake/data"

/-- `DATA_ROOT / "raw" / f"nyc_taxi_raw_{ts_nodash}.parquet"` (Fetch output). -/
def rawPath (ts_nodash : String) : String :=
  pathJoin (pathJoin DATA_ROOT "raw") ("nyc_taxi_raw_" ++ ts_nodash ++ ".parquet")

/-- `DATA_ROOT / "transformed" / f"nyc_taxi_transformed_{ts_nodash}.parquet"`
(Transform output). -/
def transformedPath (ts_nodash : String) : String :=
  pathJoin (pathJoin DATA_ROOT "transformed")
    ("nyc_taxi_transformed_" ++ ts_nodash ++ ".parquet")

/-- `DATA_ROOT / "duckdb" / f"nyc_taxi_{ts_nodash}.duckdb"` (Store output). -/
def duckdbPath (ts_nodash : String) : String :=
  pathJoin (pathJoin DATA_ROOT "duckdb") ("nyc_taxi_" ++ ts_nodash ++ ".duckdb")

/-- `DATA_ROOT / "export" / f"taxi_report_{ts_nodash}.csv"` (Export output). -/
def exportPath (ts_nodash : String) : String :=
  pathJoin (pathJoin DATA_ROOT "export") ("taxi_report_" ++ ts_nodash ++ ".csv")

/-- The four pipeline stages, in DAG order. -/
inductive Stage
  | fetchStage
  | transformStage
  | loadStage
  | exportStage
deriving DecidableEq

/-- The deterministic output location of each stage for a given run
identifier (`ts_nodash`), exactly as hard-coded in the four stage
functions of `nyc_task.py`. -/
def locationFor : Stage → String → String
  | .fetchStage, ts => rawPath ts
  | .transformStage, ts => transformedPath ts
  | .loadStage, ts => duckdbPath ts
  | .exportStage, ts => exportPath ts

/-- Outcome of the external `curl` subprocess launched by
`fetch_taxi_data`: either the process exited with a return code, or
`subprocess.run` raised `TimeoutExpired`.  In both cases `written`
records the content `curl -o` left at the destination path (`none` when
it never created the file). -/
inductive CurlResult
  | exited (code : Int) (written : Option String)
  | timedOut (written : Option String)

/-- Outcome of the external `cp` subprocess launched by
`transform_taxi_data`: `copied` is a normal exit with return code 0 (a
full byte-for-byte copy of the source file), `exited` a non-zero return
code with the captured `stderr`, `timedOut` a `TimeoutExpired`.  For the
failing outcomes `written` records any partial content left at the
destination. -/
inductive CpResult
  | copied
  | exited (stderr : String) (written : Option String)
  | timedOut (written : Option String)

/-- Apply an oracle's optional write to the filesystem. -/
def applyWrite (p : String) (w : Option String) (fs : FS) : FS :=
  match w with
  | some c => fwrite p c fs
  | none => fs

/-- The message of the empty-download failure in `fetch_taxi_data`
(spelled with a quote character in the source). -/
def msgFetchEmpty : String :=
  "Downloaded file is empty or doesn" ++ squote ++ "t exist"

/-- `fetch_taxi_data(ts_nodash, url)`: downloads `url` to the raw path
with `curl`, then checks the return code and that the destination file
exists and is non-empty.  Every exception raised inside the `try` body
(all of them `AirflowFailException`s) is re-wrapped by the generic
`except Exception` handler as `"fetch_taxi_data failed: ..."`; a
`subprocess.TimeoutExpired` is caught first and reported unwrapped as
`"curl command timed out"`. -/
def fetch_taxi_data (ts_nodash url : String) (curl : CurlResult) (fs : FS) :
    Except String String × FS :=
  let raw_path := rawPath ts_nodash
  match curl with
  | .timedOut w =>
      (.error "curl command timed out", applyWrite raw_path w fs)
  | .exited code w =>
      let fs1 := applyWrite raw_path w fs
      if code ≠ 0 then
        (.error ("fetch_taxi_data failed: "
            ++ ("curl failed with return code: " ++ toString code)), fs1)
      else if fexists raw_path fs1 = false ∨ fsize raw_path fs1 = 0 then
        (.error ("fetch_taxi_data failed: " ++ msgFetchEmpty), fs1)
      else
        (.ok raw_path, fs1)

/-- `transform_taxi_data(ts_nodash)`: returns the transformed path
immediately when it already exists (skip-if-done), fails when the raw
input is missing, otherwise copies the raw file to the transformed path
with `cp` and checks the copy exists and is non-empty.  Exceptions are
wrapped as in Fetch, with `TimeoutExpired` reported as
`"Transform timed out during file processing"`. -/
def transform_taxi_data (ts_nodash : String) (cp : CpResult) (fs : FS) :
    Except String String × FS :=
  let raw_file := rawPath ts_nodash
  let transformed_file := transformedPath ts_nodash
  if fexists transformed_file fs = true then
    (.ok transformed_file, fs)
  else if fexists raw_file fs = false then
    (.error ("transform_taxi_data failed: "
        ++ ("Input file does not exist: " ++ raw_file)), fs)
  else
    match cp with
    | .copied =>
        let fs1 := fwrite transformed_file ((fs raw_file).getD "") fs
        if fexists transformed_file fs1 = false ∨ fsize transformed_file fs1 = 0 then
          (.error ("transform_taxi_data failed: "
              ++ "Transformed file is missing or empty"), fs1)
        else
          (.ok transformed_file, fs1)
    | .exited stderr w =>
        (.error ("transform_taxi_data failed: "
            ++ ("Transform copy failed: " ++ stderr)),
         applyWrite transformed_file w fs)
    | .timedOut w =>
        (.error "Transform timed out during file processing",
         applyWrite transformed_file w fs)

/-- The placeholder content `store_taxi_data` writes to the DuckDB file;
`now` is the value of `datetime.datetime.now()` rendered as a string. -/
def storeContent (now transformed_file ts_nodash : String) : String :=
  "DuckDB placeholder created at " ++ now ++ "\n" ++
  "Source: " ++ transformed_file ++ "\n" ++
  "Timestamp: " ++ ts_nodash ++ "\n" ++
  "# In real implementation, this would be a binary DuckDB file\n" ++
  "# Created by: CREATE TABLE nyc_taxi AS SELECT * FROM " ++ squote ++
    "transformed_file.parquet" ++ squote ++ "\n"

/-- `store_taxi_data(ts_nodash)`: when the DuckDB file already exists it
returns `int(file_size_mb * 50000)` computed from that file's size
(skip-if-done); otherwise it requires the transformed input, writes the
placeholder content to the DuckDB file, and returns
`int(input_size_mb * 20000)` computed from the transformed file's size.
`int(size / 1024 / 1024 * k)` is exact floor division for realistic
sizes, embedded as `size * k / (1024 * 1024)` on naturals. -/
def store_taxi_data (ts_nodash now : String) (fs : FS) :
    Except String Nat × FS :=
  let transformed_file := transformedPath ts_nodash
  let duckdb_file := duckdbPath ts_nodash
  if fexists duckdb_file fs = true then
    (.ok (fsize duckdb_file fs * 50000 / (1024 * 1024)), fs)
  else if fexists transformed_file fs = false then
    (.error ("store_taxi_data failed: "
        ++ ("Transformed file does not exist: " ++ transformed_file)), fs)
  else
    let fs1 := fwrite duckdb_file (storeContent now transformed_file ts_nodash) fs
    if fexists duckdb_file fs1 = false then
      (.error ("store_taxi_data failed: " ++ "DuckDB file creation failed"), fs1)
    else
      (.ok (fsize transformed_file fs1 * 20000 / (1024 * 1024)), fs1)

/-- Round `num / den` to the nearest integer, ties to even (the rounding
IEEE-754 formatting applies to an exactly representable value). -/
def roundHalfEven (num den : Nat) : Nat :=
  let q := num / den
  let r := num % den
  if 2 * r < den then q
  else if den < 2 * r then q + 1
  else if q % 2 = 0 then q else q + 1

/-- Python `f"{bytes / 1024 / 1024:.2f}"`: the byte count divided by
2^20, rendered with exactly two fraction digits.  For byte counts below
2^53 the quotient is exactly representable in binary64, so `:.2f` is
round-half-to-even of `bytes * 100 / 2^20` hundredths. -/
def formatMB (bytes : Nat) : String :=
  let h := roundHalfEven (bytes * 100) (1024 * 1024)
  Nat.repr (h / 100) ++ "." ++
    String.mk [Nat.digitChar (h / 10 % 10), Nat.digitChar (h % 10)]

/-- The `file_size_mb` field of the export report: the raw file's size
formatted by `formatMB`, or the literal `"0.00"` when the raw file is
absent. -/
def reportSizeInfo (ts_nodash : String) (fs : FS) : String :=
  match fs (rawPath ts_nodash) with
  | some c => formatMB c.length
  | none => "0.00"

/-- `export_taxi_report(ts_nodash)`: writes a two-line CSV report to the
export path and returns that path; a missing raw file is tolerated and
reported as size `"0.00"`. -/
def export_taxi_report (ts_nodash : String) (fs : FS) :
    Except String String × FS :=
  let output_file := exportPath ts_nodash
  let content := "report_date,status,file_size_mb\n" ++
    (ts_nodash ++ (",processed," ++ (reportSizeInfo ts_nodash fs ++ "\n")))
  (.ok output_file, fwrite output_file content fs)

/-- The character distinguishing the four stage directories, found at
index 76 of every location (right after `DATA_ROOT ++ "/"`). -/
def stageChar : Stage → Char
  | .fetchStage => 'r'
  | .transformStage => 't'
  | .loadStage => 'd'
  | .exportStage => 'e'

/-! ## Path structure lemmas -/

/-- Decomposition of the raw path into its constant prefix, the run
identifier, and the constant extension. -/
lemma rawPath_data (t : String) :
    (rawPath t).data =
      ("/Users/ashiqurrahman/DE_Projects/airflow29_home/dags/nyc_taxi_datalake/data/raw/nyc_taxi_raw_").data
        ++ (t.data ++ (".parquet").data) := rfl

/-- Decomposition of the transformed path. -/
lemma transformedPath_data (t : String) :
    (transformedPath t).data =
      ("/Users/ashiqurrahman/DE_Projects/airflow29_home/dags/nyc_taxi_datalake/data/transformed/nyc_taxi_transformed_").data
        ++ (t.data ++ (".parquet").data) := rfl

/-- Decomposition of the DuckDB store path. -/
lemma duckdbPath_data (t : String) :
    (duckdbPath t).data =
      ("/Users/ashiqurrahman/DE_Projects/airflow29_home/dags/nyc_taxi_datalake/data/duckdb/nyc_taxi_").data
        ++ (t.data ++ (".duckdb").data) := rfl

/-- Decomposition of the export report path. -/
lemma exportPath_data (t : String) :
    (exportPath t).data =
      ("/Users/ashiqurrahman/DE_Projects/airflow29_home/dags/nyc_taxi_datalake/data/export/taxi_report_").data
        ++ (t.data ++ (".csv").data) := rfl

/-- Character 76 of a raw path is the `r` of `raw/`, whatever the run id. -/
lemma rawPath_char (t : String) : (rawPath t).data[76]? = some 'r' := by
  rw [rawPath_data, List.getElem?_append_left] <;> decide

/-- Character 76 of a transformed path is the `t` of `transformed/`. -/
lemma transformedPath_char (t : String) :
    (transformedPath t).data[76]? = some 't' := by
  rw [transformedPath_data, List.getElem?_append_left] <;> decide

/-- Character 76 of a store path is the `d` of `duckdb/`. -/
lemma duckdbPath_char (t : String) : (duckdbPath t).data[76]? = some 'd' := by
  rw [duckdbPath_data, List.getElem?_append_left] <;> decide

/-- Character 76 of an export path is the `e` of `export/`. -/
lemma exportPath_char (t : String) : (exportPath t).data[76]? = some 'e' := by
  rw [exportPath_data, List.getElem?_append_left] <;> decide

/-- Character 76 of any stage location is that stage's directory letter. -/
lemma locationFor_char (s : Stage) (t : String) :
    (locationFor s t).data[76]? = some (stageChar s) := by
  cases s
  · exact rawPath_char t
  · exact transformedPath_char t
  · exact duckdbPath_char t
  · exact exportPath_char t

/-- A transformed path never coincides with a DuckDB store path. -/
lemma transformedPath_ne_duckdbPath (t1 t2 : String) :
    transformedPath t1 ≠ duckdbPath t2 := by
  intro h
  have h1 : (transformedPath t1).data[76]? = some 't' := transformedPath_char t1
  rw [h, duckdbPath_char] at h1
  exact absurd h1 (by decide)

/-- Strings agreeing after a common prefix and before a common suffix are
equal. -/
lemma affix_inj {p s x y : List Char} (h : p ++ (x ++ s) = p ++ (y ++ s)) :
    x = y :=
  List.append_cancel_right (List.append_cancel_left h)

/-! ## Claim theorems -/

set_option maxRecDepth 1000000

/-- C1: for every stage and every run identifier, the output location is
a pure deterministic function of the (stage, runId) pair (it is a Lean
function, so determinism is by construction and the left-to-right
direction below), and two distinct (stage, runId) pairs never resolve to
the same location: `locationFor s1 t1 = locationFor s2 t2` holds exactly
when `s1 = s2` and `t1 = t2`.  Proved for all run-identifier strings,
which includes all filesystem-path-safe ones. -/
theorem locationFor_deterministic_and_injective (s1 s2 : Stage) (t1 t2 : String) :
    locationFor s1 t1 = locationFor s2 t2 ↔ s1 = s2 ∧ t1 = t2 := by
  constructor
  · intro h
    have hc : some (stageChar s1) = some (stageChar s2) := by
      rw [← locationFor_char s1 t1, ← locationFor_char s2 t2, h]
    have hs : s1 = s2 := by
      cases s1 <;> cases s2 <;> first | rfl | exact absurd hc (by decide)
    subst hs
    refine ⟨rfl, ?_⟩
    have hd := congrArg String.data h
    apply String.ext
    cases s1
    case fetchStage =>
      simp only [locationFor] at hd
      rw [rawPath_data t1, rawPath_data t2] at hd
      exact affix_inj hd
    case transformStage =>
      simp only [locationFor] at hd
      rw [transformedPath_data t1, transformedPath_data t2] at hd
      exact affix_inj hd
    case loadStage =>
      simp only [locationFor] at hd
      rw [duckdbPath_data t1, duckdbPath_data t2] at hd
      exact affix_inj hd
    case exportStage =>
      simp only [locationFor] at hd
      rw [exportPath_data t1, exportPath_data t2] at hd
      exact affix_inj hd
  · rintro ⟨rfl, rfl⟩
    rfl

/-- C2: if the transformed artifact already exists at its deterministic
location, Transform returns that path and leaves the filesystem
unchanged, whatever the copy oracle would have done (so no copy work is
performed). -/
theorem transform_skip_if_done (ts : String) (cp : CpResult) (fs : FS)
    (c : String) (h : fs (transformedPath ts) = some c) :
    transform_taxi_data ts cp fs = (.ok (transformedPath ts), fs) := by
  unfold transform_taxi_data
  simp [fexists, h]

/-- Witness for C2 at a concrete filesystem holding only the transformed
artifact of run `R`. -/
theorem transform_skip_if_done_witness :
    (fun p => if p = transformedPath "R" then some "x" else none : FS)
        (transformedPath "R") = some "x" ∧
    transform_taxi_data "R" .copied
        (fun p => if p = transformedPath "R" then some "x" else none) =
      (.ok (transformedPath "R"),
       fun p => if p = transformedPath "R" then some "x" else none) :=
  ⟨rfl, transform_skip_if_done "R" .copied _ "x" rfl⟩

/-- Concrete filesystem for the C3 counterexample: only the transformed
artifact of run `R` exists, 100 bytes long. -/
def fsC3 : FS :=
  fun p => if p = transformedPath "R" then some (String.mk (List.replicate 100 'a')) else none

/-- C3 counterexample: running Load fresh on a 100-byte transformed
artifact returns 1 record; re-running it (skip-if-done) returns 14
records, computed from the 313-byte store file with the 50000 multiplier
— so the re-run count does NOT equal the first successful run's count,
refuting the claim as stated. -/
theorem store_rerun_count_differs_cex :
    (store_taxi_data "R" "N" fsC3).1 = .ok 1 ∧
    (store_taxi_data "R" "N" (store_taxi_data "R" "N" fsC3).2).1 = .ok 14 ∧
    (1 : Nat) ≠ 14 :=
  ⟨rfl, rfl, by decide⟩

/-- C3 amended: re-running Load after a prior success performs no
store-creation work and leaves the filesystem unchanged, returning a
record count recomputed from the store file's own size with the 50000
multiplier (in general different from the first run's count). -/
theorem store_skip_if_done (ts now : String) (fs : FS) (d : String)
    (h : fs (duckdbPath ts) = some d) :
    store_taxi_data ts now fs =
      (.ok (fsize (duckdbPath ts) fs * 50000 / (1024 * 1024)), fs) := by
  unfold store_taxi_data
  simp [fexists, h]

/-- Witness for the amended C3 at a concrete filesystem holding only a
store file for run `R`. -/
theorem store_skip_if_done_witness :
    (fun p => if p = duckdbPath "R" then some "db" else none : FS)
        (duckdbPath "R") = some "db" ∧
    store_taxi_data "R" "N" (fun p => if p = duckdbPath "R" then some "db" else none) =
      (.ok (fsize (duckdbPath "R")
              (fun p => if p = duckdbPath "R" then some "db" else none) * 50000 / (1024 * 1024)),
       fun p => if p = duckdbPath "R" then some "db" else none) :=
  ⟨rfl, store_skip_if_done "R" "N" _ "db" rfl⟩

/-- Concrete filesystem for the C4 counterexample and witness: only a
zero-byte raw file for run `R` exists (exactly what a failed fetch
leaves behind). -/
def fsC4 : FS := fun p => if p = rawPath "R" then some "" else none

/-- C4 counterexample: with an existing zero-byte raw file and a
successful copy, Transform fails with "Transformed file is missing or
empty" yet leaves a zero-byte artifact visible at the deterministic
transformed location, and a subsequent retry's skip-if-done check
accepts that artifact and returns success — refuting the claim that a
failed Transform leaves no output artifact visible. -/
theorem transform_nonatomic_cex :
    (transform_taxi_data "R" .copied fsC4).1 =
      .error ("transform_taxi_data failed: "
          ++ "Transformed file is missing or empty") ∧
    fexists (transformedPath "R") (transform_taxi_data "R" .copied fsC4).2 = true ∧
    (transform_taxi_data "R" .copied ((transform_taxi_data "R" .copied fsC4).2)).1 =
      .ok (transformedPath "R") :=
  ⟨rfl, rfl, rfl⟩

/-- C4 amended: Transform writes directly to the final location, so
atomicity only holds for failures that occur before the copy starts: a
missing-input failure leaves the filesystem unchanged, but a failure
during or after the copy can leave an artifact visible at the
deterministic transformed location — in particular an empty copy result
leaves a zero-byte artifact there, which a later retry's skip-if-done
check accepts as success. -/
theorem transform_failure_artifacts :
    (∀ ts cp fs, fs (transformedPath ts) = none → fs (rawPath ts) = none →
       (transform_taxi_data ts cp fs).2 = fs) ∧
    (∀ ts fs, fs (transformedPath ts) = none → fs (rawPath ts) = some "" →
       (transform_taxi_data ts .copied fs).1 =
         .error ("transform_taxi_data failed: "
             ++ "Transformed file is missing or empty") ∧
       fexists (transformedPath ts) (transform_taxi_data ts .copied fs).2 = true ∧
       ∀ cp2, (transform_taxi_data ts cp2 (transform_taxi_data ts .copied fs).2).1 =
         .ok (transformedPath ts)) := by
  constructor
  · intro ts cp fs htf hraw
    unfold transform_taxi_data
    simp [fexists, htf, hraw]
  · intro ts fs htf hraw
    refine ⟨?_, ?_, ?_⟩
    · unfold transform_taxi_data
      simp [fexists, fwrite, fsize, htf, hraw]
    · unfold transform_taxi_data
      simp [fexists, fwrite, fsize, htf, hraw]
    · intro cp2
      unfold transform_taxi_data
      simp [fexists, fwrite, fsize, htf, hraw]

/-- Witness for the amended C4 at the concrete zero-byte-raw filesystem. -/
theorem transform_failure_artifacts_witness :
    fsC4 (transformedPath "R") = none ∧ fsC4 (rawPath "R") = some "" ∧
    ((transform_taxi_data "R" .copied fsC4).1 =
       .error ("transform_taxi_data failed: "
           ++ "Transformed file is missing or empty") ∧
     fexists (transformedPath "R") (transform_taxi_data "R" .copied fsC4).2 = true ∧
     ∀ cp2, (transform_taxi_data "R" cp2 (transform_taxi_data "R" .copied fsC4).2).1 =
       .ok (transformedPath "R")) :=
  ⟨rfl, rfl, transform_failure_artifacts.2 "R" fsC4 rfl rfl⟩

/-- Concrete filesystem for the C5 counterexample: the transformed
artifact of run `R` exists but the raw input does not. -/
def fsC5 : FS := fun p => if p = transformedPath "R" then some "x" else none

/-- C5 counterexample: with the raw input absent but the transformed
artifact present, Transform returns success through its skip-if-done
branch (which runs before the input check) instead of failing — refuting
"if the raw artifact is absent when Transform runs, Transform fails
hard". -/
theorem transform_missing_input_skipped_cex :
    fsC5 (rawPath "R") = none ∧
    (transform_taxi_data "R" .copied fsC5).1 = .ok (transformedPath "R") :=
  ⟨rfl, rfl⟩

/-- C5 amended: if the raw artifact is absent and the transformed
artifact is not already present, Transform fails hard with the
missing-input failure and changes nothing; absence of the input is
converted into a success only through the skip-if-done branch. -/
theorem transform_missing_input_fails (ts : String) (cp : CpResult) (fs : FS)
    (htf : fs (transformedPath ts) = none) (hraw : fs (rawPath ts) = none) :
    transform_taxi_data ts cp fs =
      (.error ("transform_taxi_data failed: "
          ++ ("Input file does not exist: " ++ rawPath ts)), fs) := by
  unfold transform_taxi_data
  simp [fexists, htf, hraw]

/-- Witness for the amended C5 on the empty filesystem. -/
theorem transform_missing_input_fails_witness :
    ((fun _ => none : FS) (transformedPath "R") = none) ∧
    ((fun _ => none : FS) (rawPath "R") = none) ∧
    transform_taxi_data "R" .copied (fun _ => none) =
      (.error ("transform_taxi_data failed: "
          ++ ("Input file does not exist: " ++ rawPath "R")), fun _ => none) :=
  ⟨rfl, rfl, transform_missing_input_fails "R" .copied _ rfl rfl⟩

/-- A non-empty string has non-zero length. -/
lemma length_ne_zero_of_ne_empty {c : String} (h : c ≠ "") : c.length ≠ 0 := by
  intro hl
  apply h
  cases c with
  | mk l =>
    cases l with
    | nil => rfl
    | cons a t => simp [String.length] at hl

/-- C6: whenever Fetch returns successfully the destination artifact
exists and has non-zero size; a missing or zero-byte file after a
zero-exit transfer is reported as a failure, not success; and a
zero-byte raw file is never accepted by Transform as a valid input (all
copy-oracle outcomes fail when the raw input is empty and no transformed
output pre-exists). -/
theorem fetch_success_nonempty :
    (∀ ts url curl fs p fs2,
       fetch_taxi_data ts url curl fs = (.ok p, fs2) →
       p = rawPath ts ∧ fexists (rawPath ts) fs2 = true ∧
         0 < fsize (rawPath ts) fs2) ∧
    (∀ ts url w fs,
       fexists (rawPath ts) (applyWrite (rawPath ts) w fs) = false ∨
         fsize (rawPath ts) (applyWrite (rawPath ts) w fs) = 0 →
       (fetch_taxi_data ts url (.exited 0 w) fs).1 =
         .error ("fetch_taxi_data failed: " ++ msgFetchEmpty)) ∧
    (∀ ts cp fs, fs (transformedPath ts) = none → fs (rawPath ts) = some "" →
       ∃ m, (transform_taxi_data ts cp fs).1 = .error m) := by
  refine ⟨?_, ?_, ?_⟩
  · intro ts url curl fs p fs2 h
    cases curl with
    | timedOut w => simp [fetch_taxi_data] at h
    | exited code w =>
      simp only [fetch_taxi_data] at h
      split at h
      · simp at h
      · split at h
        · simp at h
        · rename_i hcode hempty
          rw [not_or] at hempty
          obtain ⟨hne, hsz⟩ := hempty
          injection h with h1 h2
          injection h1 with h1
          subst h2
          refine ⟨h1.symm, ?_, Nat.pos_of_ne_zero hsz⟩
          cases hx : fexists (rawPath ts) (applyWrite (rawPath ts) w fs) with
          | false => exact absurd hx hne
          | true => rfl
  · intro ts url w fs hemp
    simp only [fetch_taxi_data]
    rw [if_neg (by decide : ¬((0 : Int) ≠ 0)), if_pos hemp]
  · intro ts cp fs htf hraw
    cases cp with
    | copied =>
      exact ⟨"transform_taxi_data failed: "
          ++ "Transformed file is missing or empty",
        by unfold transform_taxi_data; simp [fexists, fwrite, fsize, htf, hraw]⟩
    | exited stderr w =>
      exact ⟨"transform_taxi_data failed: "
          ++ ("Transform copy failed: " ++ stderr),
        by unfold transform_taxi_data; simp [fexists, htf, hraw]⟩
    | timedOut w =>
      exact ⟨"Transform timed out during file processing",
        by unfold transform_taxi_data; simp [fexists, htf, hraw]⟩

/-- Witness for C6: a successful fetch of content `ab` on the empty
filesystem satisfies the postcondition; the hypothesis of the first
conjunct is discharged at that concrete run. -/
theorem fetch_success_nonempty_witness :
    fetch_taxi_data "R" "u" (.exited 0 (some "ab")) (fun _ => none) =
      (.ok (rawPath "R"), fwrite (rawPath "R") "ab" (fun _ => none)) ∧
    ("R" = rawPath "R" ∨
      (fexists (rawPath "R") (fwrite (rawPath "R") "ab" (fun _ => none)) = true ∧
       0 < fsize (rawPath "R") (fwrite (rawPath "R") "ab" (fun _ => none)))) :=
  ⟨rfl,
   Or.inr (fetch_success_nonempty.1 "R" "u" (.exited 0 (some "ab"))
      (fun _ => none) (rawPath "R") (fwrite (rawPath "R") "ab" (fun _ => none)) rfl).2⟩

/-- C7: Export always succeeds, writing a two-line CSV report (header
`report_date,status,file_size_mb`, then `<runId>,processed,<size>`); the
size field is `formatMB` of the raw artifact's byte size, a string with
exactly two fraction digits, and the literal `0.00` when the raw
artifact is absent. -/
theorem export_report_format :
    (∀ ts fs, export_taxi_report ts fs =
       (.ok (exportPath ts),
        fwrite (exportPath ts)
          ("report_date,status,file_size_mb\n" ++
            (ts ++ (",processed," ++ (reportSizeInfo ts fs ++ "\n")))) fs)) ∧
    (∀ ts fs, fs (rawPath ts) = none → reportSizeInfo ts fs = "0.00") ∧
    (∀ ts fs c, fs (rawPath ts) = some c →
       reportSizeInfo ts fs = formatMB c.length) ∧
    (∀ n, ∃ ip fr, formatMB n = ip ++ "." ++ fr ∧ fr.length = 2) := by
  refine ⟨fun ts fs => rfl, ?_, ?_, ?_⟩
  · intro ts fs h
    unfold reportSizeInfo
    rw [h]
  · intro ts fs c h
    unfold reportSizeInfo
    rw [h]
  · intro n
    exact ⟨Nat.repr (roundHalfEven (n * 100) (1024 * 1024) / 100),
           String.mk [Nat.digitChar (roundHalfEven (n * 100) (1024 * 1024) / 10 % 10),
                      Nat.digitChar (roundHalfEven (n * 100) (1024 * 1024) % 10)],
           rfl, rfl⟩

/-- Witness for C7: on the empty filesystem the report for run `R` is
written with size field `0.00` and the stage succeeds. -/
theorem export_report_format_witness :
    ((fun _ => none : FS) (rawPath "R") = none) ∧
    reportSizeInfo "R" (fun _ => none) = "0.00" ∧
    (export_taxi_report "R" (fun _ => none)).1 = .ok (exportPath "R") :=
  ⟨rfl, export_report_format.2.1 "R" (fun _ => none) rfl,
   by rw [export_report_format.1 "R" (fun _ => none)]⟩

/-- C8: Fetch has no skip-if-done branch: even when a raw artifact
already exists at the deterministic location, a successful transfer
overwrites it with the newly downloaded content, and a failed transfer
fails the stage rather than reusing the existing artifact. -/
theorem fetch_no_skip_check :
    (∀ ts url c old fs, fs (rawPath ts) = some old → c ≠ "" →
       fetch_taxi_data ts url (.exited 0 (some c)) fs =
         (.ok (rawPath ts), fwrite (rawPath ts) c fs)) ∧
    (∀ ts url code w old fs, fs (rawPath ts) = some old → code ≠ 0 →
       (fetch_taxi_data ts url (.exited code w) fs).1 =
         .error ("fetch_taxi_data failed: "
             ++ ("curl failed with return code: " ++ toString code))) := by
  constructor
  · intro ts url c old fs hold hc
    unfold fetch_taxi_data
    simp [applyWrite, fexists, fwrite, fsize, length_ne_zero_of_ne_empty hc]
  · intro ts url code w old fs hold hcode
    unfold fetch_taxi_data
    simp [hcode]

/-- Witness for C8: run `R` with an existing raw artifact `old`; the new
download `new` replaces it, and a curl exit code 7 fails the stage. -/
theorem fetch_no_skip_check_witness :
    ((fun p => if p = rawPath "R" then some "old" else none : FS)
        (rawPath "R") = some "old") ∧
    ("new" : String) ≠ "" ∧
    fetch_taxi_data "R" "u" (.exited 0 (some "new"))
        (fun p => if p = rawPath "R" then some "old" else none) =
      (.ok (rawPath "R"),
       fwrite (rawPath "R") "new"
         (fun p => if p = rawPath "R" then some "old" else none)) ∧
    (fetch_taxi_data "R" "u" (.exited 7 none)
        (fun p => if p = rawPath "R" then some "old" else none)).1 =
      .error ("fetch_taxi_data failed: "
          ++ ("curl failed with return code: " ++ toString (7 : Int))) :=
  ⟨rfl, by decide,
   fetch_no_skip_check.1 "R" "u" "new" "old" _ rfl (by decide),
   fetch_no_skip_check.2 "R" "u" 7 none "old" _ rfl (by decide)⟩

/-- C9 counterexample: a fetch timeout is reported with the fixed
message `curl command timed out`, which contains neither the run
identifier nor the stage function name — refuting "every stage-local
failure is wrapped with stage context identifying both which stage and
which run failed". -/
theorem fetch_timeout_no_context_cex :
    (fetch_taxi_data "20250101T000000" "u" (.timedOut none) (fun _ => none)).1 =
      .error "curl command timed out" ∧
    ¬ ("20250101T000000".data <:+: "curl command timed out".data) ∧
    ¬ ("fetch".data <:+: "curl command timed out".data) :=
  ⟨rfl, by decide, by decide⟩

/-- C9 amended: every stage-local failure in Fetch, Transform and Load
is surfaced as a hard failure; failures caught by the generic handler
are wrapped with the failing stage's function name
(`<stage> failed: ...`, which does not generally include the run id),
while the timeout handlers use fixed messages without that stage
wrapping; Export never fails and tolerates a missing upstream
artifact. -/
theorem stage_failures_hard :
    (∀ ts url curl fs m, (fetch_taxi_data ts url curl fs).1 = .error m →
       m = "curl command timed out" ∨
         ∃ r, m = "fetch_taxi_data failed: " ++ r) ∧
    (∀ ts cp fs m, (transform_taxi_data ts cp fs).1 = .error m →
       m = "Transform timed out during file processing" ∨
         ∃ r, m = "transform_taxi_data failed: " ++ r) ∧
    (∀ ts now fs m, (store_taxi_data ts now fs).1 = .error m →
       ∃ r, m = "store_taxi_data failed: " ++ r) ∧
    (∀ ts fs, (export_taxi_report ts fs).1 = .ok (exportPath ts)) := by
  refine ⟨?_, ?_, ?_, fun ts fs => rfl⟩
  · intro ts url curl fs m h
    cases curl with
    | timedOut w =>
      exact Or.inl (Except.error.inj h).symm
    | exited code w =>
      simp only [fetch_taxi_data] at h
      split at h
      · exact Or.inr ⟨_, (Except.error.inj h).symm⟩
      · split at h
        · exact Or.inr ⟨_, (Except.error.inj h).symm⟩
        · exact absurd h (by simp)
  · intro ts cp fs m h
    cases cp with
    | copied =>
      simp only [transform_taxi_data] at h
      split at h
      · exact absurd h (by simp)
      · split at h
        · exact Or.inr ⟨_, (Except.error.inj h).symm⟩
        · split at h
          · exact Or.inr ⟨_, (Except.error.inj h).symm⟩
          · exact absurd h (by simp)
    | exited stderr w =>
      simp only [transform_taxi_data] at h
      split at h
      · exact absurd h (by simp)
      · split at h
        · exact Or.inr ⟨_, (Except.error.inj h).symm⟩
        · exact Or.inr ⟨_, (Except.error.inj h).symm⟩
    | timedOut w =>
      simp only [transform_taxi_data] at h
      split at h
      · exact absurd h (by simp)
      · split at h
        · exact Or.inr ⟨_, (Except.error.inj h).symm⟩
        · exact Or.inl (Except.error.inj h).symm
  · intro ts now fs m h
    simp only [store_taxi_data] at h
    split at h
    · exact absurd h (by simp)
    · split at h
      · exact ⟨_, (Except.error.inj h).symm⟩
      · split at h
        · exact ⟨_, (Except.error.inj h).symm⟩
        · exact absurd h (by simp)

/-- Witness for the amended C9: the fetch timeout failure instantiates
the first conjunct. -/
theorem stage_failures_hard_witness :
    (fetch_taxi_data "R" "u" (.timedOut none) (fun _ => none)).1 =
      .error "curl command timed out" ∧
    ("curl command timed out" = "curl command timed out" ∨
      ∃ r, "curl command timed out" = "fetch_taxi_data failed: " ++ r) :=
  ⟨rfl,
   stage_failures_hard.1 "R" "u" (.timedOut none) (fun _ => none)
     "curl command timed out" rfl⟩

/-- C10: a fresh (non-skipped) successful Load returns
`int(transformed_size_bytes / 1024 / 1024 * 20000)`; this is 0 for any
non-empty transformed artifact of at most 52 bytes (the "about 53
bytes" threshold: 52 * 20000 < 2^20 ≤ 53 * 20000), so success does not
guarantee a positive count; and the skip-if-done branch instead computes
its count from the store file's own size with the 50000 multiplier. -/
theorem store_record_count_formulas :
    (∀ ts now fs c, fs (duckdbPath ts) = none →
       fs (transformedPath ts) = some c →
       (store_taxi_data ts now fs).1 = .ok (c.length * 20000 / (1024 * 1024))) ∧
    (∀ ts now fs c, fs (duckdbPath ts) = none →
       fs (transformedPath ts) = some c → 0 < c.length → c.length ≤ 52 →
       (store_taxi_data ts now fs).1 = .ok 0) ∧
    (∀ ts now fs d, fs (duckdbPath ts) = some d →
       (store_taxi_data ts now fs).1 = .ok (d.length * 50000 / (1024 * 1024))) := by
  have hmain : ∀ (ts now : String) (fs : FS) (c : String),
      fs (duckdbPath ts) = none → fs (transformedPath ts) = some c →
      (store_taxi_data ts now fs).1 = .ok (c.length * 20000 / (1024 * 1024)) := by
    intro ts now fs c hdb htf
    unfold store_taxi_data
    simp [fexists, fwrite, fsize, hdb, htf, transformedPath_ne_duckdbPath ts ts]
  refine ⟨hmain, ?_, ?_⟩
  · intro ts now fs c hdb htf hpos hle
    rw [hmain ts now fs c hdb htf]
    have : c.length * 20000 / (1024 * 1024) = 0 := Nat.div_eq_of_lt (by omega)
    rw [this]
  · intro ts now fs d hdb
    unfold store_taxi_data
    simp [fexists, fsize, hdb]

/-- Witness for C10: a 52-byte transformed artifact yields a successful
Load with record count 0, and a pre-existing 4-byte store file yields
the skip-branch count `4 * 50000 / 2^20`. -/
theorem store_record_count_formulas_witness :
    ((fun p => if p = transformedPath "R"
        then some (String.mk (List.replicate 52 'a')) else none : FS)
      (duckdbPath "R") = none) ∧
    (store_taxi_data "R" "N"
      (fun p => if p = transformedPath "R"
        then some (String.mk (List.replicate 52 'a')) else none)).1 = .ok 0 ∧
    (store_taxi_data "R" "N"
      (fun p => if p = duckdbPath "R" then some "dddd" else none)).1 =
      .ok ("dddd".length * 50000 / (1024 * 1024)) :=
  ⟨rfl,
   store_record_count_formulas.2.1 "R" "N" _ (String.mk (List.replicate 52 'a'))
     rfl rfl (by decide) (by decide),
   store_record_count_formulas.2.2 "R" "N" _ "dddd" rfl⟩
